import Mathlib

/-!
# Verification of the violation taxonomy and checking engine

This development embeds, in Lean 4, the violation catalog of the
`wemake_python_styleguide` excerpt (`violations/naming.py` and
`violations/complexity.py`) together with the metric-collection,
naming-validation, suppression and orchestration behaviour that the
specification describes for the engine.  The catalog entries are
transcribed field by field from the source; the collector, validator,
suppression and checker functions are modelled from the specification
because their code is not part of the excerpt.
-/

/-- Category of a violation kind, per the module it is declared in. -/
inductive Category where
  | naming
  | complexity
deriving DecidableEq, Repr

/-- How a violation is anchored, per its base class in the source:
`SimpleViolation` is anchored to the whole module, `ASTViolation` to an
AST node, `MaybeASTViolation` to either. -/
inductive Anchor where
  | simple
  | ast
  | maybeAst
deriving DecidableEq, Repr

/-- One entry of the static violation catalog: the `code`,
`error_template` and `should_use_text` class attributes from the source,
plus the declaring module (category) and the base class (anchor). -/
structure ViolationKind where
  code : Nat
  category : Category
  error_template : String
  should_use_text : Bool
  anchor : Anchor
deriving DecidableEq, Repr

/-- `naming.py` line 151: `SimpleViolation`, code 100. -/
def WrongModuleNameViolation : ViolationKind :=
  ⟨100, Category.naming, "Found wrong module name", false, Anchor.simple⟩

/-- `naming.py` line 190: `SimpleViolation`, code 101. -/
def WrongModuleMagicNameViolation : ViolationKind :=
  ⟨101, Category.naming, "Found wrong module magic name", false, Anchor.simple⟩

/-- `naming.py` line 225: `SimpleViolation`, code 102. -/
def WrongModuleNamePatternViolation : ViolationKind :=
  ⟨102, Category.naming, "Found incorrect module name pattern", false, Anchor.simple⟩

/-- `naming.py` line 267: `ASTViolation`, code 110. -/
def WrongVariableNameViolation : ViolationKind :=
  ⟨110, Category.naming, "Found wrong variable name \"{0}\"", true, Anchor.ast⟩

/-- `naming.py` line 306: `MaybeASTViolation`, code 111. -/
def TooShortNameViolation : ViolationKind :=
  ⟨111, Category.naming, "Found too short name \"{0}\"", true, Anchor.maybeAst⟩

/-- `naming.py` line 345: `MaybeASTViolation`, code 112. -/
def PrivateNameViolation : ViolationKind :=
  ⟨112, Category.naming, "Found private name pattern \"{0}\"", true, Anchor.maybeAst⟩

/-- `naming.py` line 383: `ASTViolation`, code 113. -/
def SameAliasImportViolation : ViolationKind :=
  ⟨113, Category.naming, "Found same alias import \"{0}\"", true, Anchor.ast⟩

/-- `naming.py` line 411: `MaybeASTViolation`, code 114. -/
def UnderscoredNumberNameViolation : ViolationKind :=
  ⟨114, Category.naming, "Found underscored name pattern \"{0}\"", true, Anchor.maybeAst⟩

/-- `naming.py` line 451: `ASTViolation`, code 115. -/
def UpperCaseAttributeViolation : ViolationKind :=
  ⟨115, Category.naming, "Found upper-case constant in a class \"{0}\"", true, Anchor.ast⟩

/-- `naming.py` line 487: `MaybeASTViolation`, code 116. -/
def ConsecutiveUnderscoresInNameViolation : ViolationKind :=
  ⟨116, Category.naming, "Found consecutive underscores in a variable \"{0}\"", true,
    Anchor.maybeAst⟩

/-- `complexity.py` line 79: `SimpleViolation`, code 200. -/
def JonesScoreViolation : ViolationKind :=
  ⟨200, Category.complexity, "Found module with high Jones Complexity score", false,
    Anchor.simple⟩

/-- `complexity.py` line 114: `SimpleViolation`, code 201. -/
def TooManyImportsViolation : ViolationKind :=
  ⟨201, Category.complexity, "Found module with too many imports: {0}", true, Anchor.simple⟩

/-- `complexity.py` line 155: `SimpleViolation`, code 202. -/
def TooManyModuleMembersViolation : ViolationKind :=
  ⟨202, Category.complexity, "Found too many module members", false, Anchor.simple⟩

/-- `complexity.py` line 189: `ASTViolation`, code 210. -/
def TooManyLocalsViolation : ViolationKind :=
  ⟨210, Category.complexity, "Found too many local variables \"{0}\"", true, Anchor.ast⟩

/-- `complexity.py` line 241: `ASTViolation`, code 211. -/
def TooManyArgumentsViolation : ViolationKind :=
  ⟨211, Category.complexity, "Found too many arguments \"{0}\"", true, Anchor.ast⟩

/-- `complexity.py` line 269: `ASTViolation`, code 212. -/
def TooManyReturnsViolation : ViolationKind :=
  ⟨212, Category.complexity, "Found too many return statements \"{0}\"", true, Anchor.ast⟩

/-- `complexity.py` line 296: `ASTViolation`, code 213. -/
def TooManyExpressionsViolation : ViolationKind :=
  ⟨213, Category.complexity, "Found too many expressions \"{0}\"", true, Anchor.ast⟩

/-- `complexity.py` line 322: `ASTViolation`, code 214. -/
def TooManyMethodsViolation : ViolationKind :=
  ⟨214, Category.complexity, "Found too many methods \"{0}\"", true, Anchor.ast⟩

/-- `complexity.py` line 360: `ASTViolation`, code 220. -/
def TooDeepNestingViolation : ViolationKind :=
  ⟨220, Category.complexity, "Found too deep nesting \"{0}\"", true, Anchor.ast⟩

/-- `complexity.py` line 388: `ASTViolation`, code 221. -/
def LineComplexityViolation : ViolationKind :=
  ⟨221, Category.complexity, "Found line with high Jones Complexity: {0}", true, Anchor.ast⟩

/-- `complexity.py` line 434: `ASTViolation`, code 222. -/
def TooManyConditionsViolation : ViolationKind :=
  ⟨222, Category.complexity, "Found a condition with too much logic: {0}", true, Anchor.ast⟩

/-- `complexity.py` line 473: `ASTViolation`, code 223. -/
def TooManyElifsViolation : ViolationKind :=
  ⟨223, Category.complexity, "Found too many `elif` branches", false, Anchor.ast⟩

/-- `complexity.py` line 503: `ASTViolation`, code 224. -/
def TooManyForsInComprehensionViolation : ViolationKind :=
  ⟨224, Category.complexity, "Found a comprehension with too many `for` statements", false,
    Anchor.ast⟩

/-- `complexity.py` line 539: `ASTViolation`, code 225. -/
def TooManyBaseClassesViolation : ViolationKind :=
  ⟨225, Category.complexity, "Too many number of base classes", false, Anchor.ast⟩

/-- The static violation catalog: every violation kind declared in
`naming.py` and `complexity.py`, in declaration order. -/
def catalog : List ViolationKind :=
  [WrongModuleNameViolation, WrongModuleMagicNameViolation,
   WrongModuleNamePatternViolation, WrongVariableNameViolation,
   TooShortNameViolation, PrivateNameViolation, SameAliasImportViolation,
   UnderscoredNumberNameViolation, UpperCaseAttributeViolation,
   ConsecutiveUnderscoresInNameViolation,
   JonesScoreViolation, TooManyImportsViolation, TooManyModuleMembersViolation,
   TooManyLocalsViolation, TooManyArgumentsViolation, TooManyReturnsViolation,
   TooManyExpressionsViolation, TooManyMethodsViolation, TooDeepNestingViolation,
   LineComplexityViolation, TooManyConditionsViolation, TooManyElifsViolation,
   TooManyForsInComprehensionViolation, TooManyBaseClassesViolation]

/-- Whether the pattern is an initial segment of the character list. -/
def hasPre : List Char → List Char → Bool
  | [], _ => true
  | _ :: _, [] => false
  | p :: ps, c :: cs => p == c && hasPre ps cs

/-- Whether the pattern occurs contiguously somewhere in the character list. -/
def hasSub (p : List Char) : List Char → Bool
  | [] => hasPre p []
  | c :: cs => hasPre p (c :: cs) || hasSub p cs

/-- Whether a message template contains the positional parameter
placeholder. -/
def hasPlaceholder (s : String) : Bool :=
  hasSub "{0}".toList s.toList

/-- C2: every code in the catalog is a unique three-digit integer; naming
codes lie in 100..116, complexity codes in 200..225, and no code is
assigned to two kinds. -/
theorem catalog_codes_unique_and_ranged :
    (catalog.map ViolationKind.code).Nodup ∧
    ∀ k ∈ catalog,
      (100 ≤ k.code ∧ k.code ≤ 999) ∧
      (k.category = Category.naming → 100 ≤ k.code ∧ k.code ≤ 116) ∧
      (k.category = Category.complexity → 200 ≤ k.code ∧ k.code ≤ 225) := by
  decide

/-- Witness for C2 at a concrete catalog entry (code 100). -/
theorem catalog_codes_unique_and_ranged_witness :
    (100 ≤ WrongModuleNameViolation.code ∧ WrongModuleNameViolation.code ≤ 999) ∧
    (WrongModuleNameViolation.category = Category.naming →
      100 ≤ WrongModuleNameViolation.code ∧ WrongModuleNameViolation.code ≤ 116) ∧
    (WrongModuleNameViolation.category = Category.complexity →
      200 ≤ WrongModuleNameViolation.code ∧ WrongModuleNameViolation.code ≤ 225) :=
  catalog_codes_unique_and_ranged.2 WrongModuleNameViolation (by decide)

/-- C9: the catalog has exactly 24 kinds, and for each of them the message
template contains the positional placeholder exactly when the kind does not
set `should_use_text = False`. -/
theorem catalog_placeholder_iff_should_use_text :
    catalog.length = 24 ∧
    ∀ k ∈ catalog, hasPlaceholder k.error_template = k.should_use_text := by
  decide

/-- Witness for C9 at a concrete catalog entry (code 225, which sets
`should_use_text = False` and has no placeholder). -/
theorem catalog_placeholder_iff_should_use_text_witness :
    hasPlaceholder TooManyBaseClassesViolation.error_template =
      TooManyBaseClassesViolation.should_use_text :=
  catalog_placeholder_iff_should_use_text.2 TooManyBaseClassesViolation (by decide)

/-- C10: among naming violations, exactly codes 111, 112, 114, 116 are
`MaybeASTViolation`; exactly 100, 101, 102 are `SimpleViolation`; exactly
110, 113, 115 are `ASTViolation`. -/
theorem naming_anchor_partition :
    ∀ k ∈ catalog, k.category = Category.naming →
      (k.anchor = Anchor.maybeAst ↔ k.code ∈ [111, 112, 114, 116]) ∧
      (k.anchor = Anchor.simple ↔ k.code ∈ [100, 101, 102]) ∧
      (k.anchor = Anchor.ast ↔ k.code ∈ [110, 113, 115]) := by
  decide

/-- Witness for C10 at a concrete catalog entry (code 111, a
`MaybeASTViolation`). -/
theorem naming_anchor_partition_witness :
    (TooShortNameViolation.anchor = Anchor.maybeAst ↔
      TooShortNameViolation.code ∈ [111, 112, 114, 116]) ∧
    (TooShortNameViolation.anchor = Anchor.simple ↔
      TooShortNameViolation.code ∈ [100, 101, 102]) ∧
    (TooShortNameViolation.anchor = Anchor.ast ↔
      TooShortNameViolation.code ∈ [110, 113, 115]) :=
  naming_anchor_partition TooShortNameViolation (by decide) (by decide)

/-- A constructed violation instance: stable code, source location, and the
optional formatted text parameter carried by kinds with
`should_use_text = True` ("whether it carries a formatted text parameter"
in the registry). -/
structure Violation where
  code : Nat
  line : Nat
  col : Nat
  param : Option String
deriving DecidableEq, Repr

/-- Effective `should_use_text` flag of the catalog kind with the given
code (`false` for a code outside the catalog). -/
def shouldUseText (c : Nat) : Bool :=
  ((catalog.find? (fun k => k.code == c)).map ViolationKind.should_use_text).getD false

/-- Build a violation instance: the text parameter is attached exactly
when the kind carries one, per the catalog. -/
def mkViolation (c line col : Nat) (txt : String) : Violation :=
  ⟨c, line, col, if shouldUseText c then some txt else none⟩

/-- Modelled from the spec: the resolved Threshold Configuration (§3/§6);
the option-parsing code that produces it is not part of the excerpt.  One
numeric limit per recognized option; `max_fors` is the "configured limit"
for comprehension `for` clauses that §8 mentions. -/
structure Config where
  max_imports : Nat
  max_module_members : Nat
  max_local_variables : Nat
  max_arguments : Nat
  max_returns : Nat
  max_expressions : Nat
  max_methods : Nat
  max_offset_blocks : Nat
  max_line_complexity : Nat
  max_module_score : Nat
  max_conditions : Nat
  max_elifs : Nat
  max_base_classes : Nat
  min_name_length : Nat
  max_fors : Nat
deriving DecidableEq, Repr

/-- The metric families of the §4.2 table, one constructor per measured
quantity. -/
inductive Metric where
  | imports
  | moduleMembers
  | localVariables
  | arguments
  | returns
  | expressions
  | methods
  | offsetBlocks
  | lineComplexity
  | moduleScore
  | conditions
  | elifs
  | comprehensionFors
  | baseClasses
deriving DecidableEq, Repr

/-- Every metric of the §4.2 table. -/
def allMetrics : List Metric :=
  [Metric.imports, Metric.moduleMembers, Metric.localVariables,
   Metric.arguments, Metric.returns, Metric.expressions, Metric.methods,
   Metric.offsetBlocks, Metric.lineComplexity, Metric.moduleScore,
   Metric.conditions, Metric.elifs, Metric.comprehensionFors,
   Metric.baseClasses]

/-- The threshold the configuration assigns to each metric. -/
def thresholdOf (cfg : Config) : Metric → Nat
  | Metric.imports => cfg.max_imports
  | Metric.moduleMembers => cfg.max_module_members
  | Metric.localVariables => cfg.max_local_variables
  | Metric.arguments => cfg.max_arguments
  | Metric.returns => cfg.max_returns
  | Metric.expressions => cfg.max_expressions
  | Metric.methods => cfg.max_methods
  | Metric.offsetBlocks => cfg.max_offset_blocks
  | Metric.lineComplexity => cfg.max_line_complexity
  | Metric.moduleScore => cfg.max_module_score
  | Metric.conditions => cfg.max_conditions
  | Metric.elifs => cfg.max_elifs
  | Metric.comprehensionFors => cfg.max_fors
  | Metric.baseClasses => cfg.max_base_classes

/-- The violation code each metric reports. -/
def metricCode : Metric → Nat
  | Metric.imports => 201
  | Metric.moduleMembers => 202
  | Metric.localVariables => 210
  | Metric.arguments => 211
  | Metric.returns => 212
  | Metric.expressions => 213
  | Metric.methods => 214
  | Metric.offsetBlocks => 220
  | Metric.lineComplexity => 221
  | Metric.moduleScore => 200
  | Metric.conditions => 222
  | Metric.elifs => 223
  | Metric.comprehensionFors => 224
  | Metric.baseClasses => 225

/-- Modelled from the spec: "A collector flags a violation when its
measurement strictly exceeds the corresponding threshold" (§4.2); the
collector code itself is not part of the excerpt.  The parameter is the
formatted measurement when the kind carries text, per the catalog. -/
def collectMetric (m : Metric) (measurement : Nat) (cfg : Config)
    (line col : Nat) : Option Violation :=
  if thresholdOf cfg m < measurement then
    some (mkViolation (metricCode m) line col (toString measurement))
  else
    none

/-- C3: for every metric of the table, a measurement exactly equal to the
configured threshold never flags, and a measurement one unit above always
flags (so a collector flags exactly when the measurement strictly exceeds
the threshold). -/
theorem threshold_boundary (cfg : Config) (m : Metric) (line col : Nat) :
    collectMetric m (thresholdOf cfg m) cfg line col = none ∧
    collectMetric m (thresholdOf cfg m + 1) cfg line col =
      some (mkViolation (metricCode m) line col
        (toString (thresholdOf cfg m + 1))) ∧
    ∀ measurement,
      (collectMetric m measurement cfg line col).isSome =
        decide (thresholdOf cfg m < measurement) := by
  refine ⟨?_, ?_, ?_⟩
  · simp [collectMetric]
  · simp [collectMetric]
  · intro measurement
    by_cases h : thresholdOf cfg m < measurement <;> simp [collectMetric, h]

/-- Modelled from the spec: the base-class-count collector ("Base class
count | base-class expressions in a class definition | class", §4.2); the
collector code is not part of the excerpt.  Emission and parameter policy
follow `collectMetric`, hence the catalog entry for code 225. -/
def checkBaseClasses (baseCount : Nat) (cfg : Config) (line col : Nat) :
    Option Violation :=
  collectMetric Metric.baseClasses baseCount cfg line col

/-- A concrete threshold configuration used for concrete evaluations:
`max_base_classes` is 3, as in the §8 scenario. -/
def exampleConfig : Config :=
  ⟨12, 7, 5, 5, 5, 9, 7, 10, 14, 10, 4, 3, 3, 2, 2⟩

/-- C1 counterexample: with 5 declared bases against a limit of 3 the
violation with code 225 does fire, but it carries no parameter
(`TooManyBaseClassesViolation` sets `should_use_text = False` and its
template has no placeholder), so its parameter is not the actual count. -/
theorem baseClasses_param_counterexample :
    checkBaseClasses 5 exampleConfig 10 0 =
      some { code := 225, line := 10, col := 0, param := none } ∧
    (some "5" : Option String) ≠ none ∧
    hasPlaceholder TooManyBaseClassesViolation.error_template = false ∧
    TooManyBaseClassesViolation.should_use_text = false := by
  decide

/-- C1 amended: whenever the declared base-class count strictly exceeds
`max_base_classes`, the collector emits the too-many-base-classes
violation with code 225 at the class's location; the violation carries no
text parameter, since the kind sets `should_use_text = False`. -/
theorem baseClasses_over_limit_flags (baseCount : Nat) (cfg : Config)
    (line col : Nat) (h : cfg.max_base_classes < baseCount) :
    checkBaseClasses baseCount cfg line col =
      some { code := 225, line := line, col := col, param := none } := by
  have hthr : thresholdOf cfg Metric.baseClasses = cfg.max_base_classes := rfl
  simp [checkBaseClasses, collectMetric, hthr, h, mkViolation]
  decide

/-- Witness for C1's amended theorem: 5 bases against a limit of 3. -/
theorem baseClasses_over_limit_flags_witness :
    exampleConfig.max_base_classes < 5 ∧
    checkBaseClasses 5 exampleConfig 10 0 =
      some { code := 225, line := 10, col := 0, param := none } :=
  ⟨by decide, baseClasses_over_limit_flags 5 exampleConfig 10 0 (by decide)⟩

/-- Modelled from the spec: the import-alias check ("an import whose alias
textually equals its original name is flagged as a redundant alias",
§4.3 item 7); the validator code is not part of the excerpt.  Parameter
policy follows the catalog entry for code 113. -/
def checkImportAlias (original aliasName : String) (line col : Nat) :
    Option Violation :=
  if aliasName == original then
    some (mkViolation 113 line col original)
  else
    none

/-- C8: an import binding a name under an alias textually equal to the
original name yields the same-alias-import violation, code 113, whose
parameter is the offending name; an import whose alias differs yields
nothing. -/
theorem same_alias_import_flags (original aliasName : String)
    (line col : Nat) (h : aliasName = original) :
    checkImportAlias original aliasName line col =
      some { code := 113, line := line, col := col, param := some original } := by
  subst h
  have huse : shouldUseText 113 = true := by decide
  simp [checkImportAlias, mkViolation, huse]

/-- Witness for C8: `from os import path as path`. -/
theorem same_alias_import_flags_witness :
    checkImportAlias "path" "path" 3 0 =
      some { code := 113, line := 3, col := 0, param := some "path" } :=
  same_alias_import_flags "path" "path" 3 0 rfl

/-- Modelled from the spec: one simple-name binding occurrence discovered
inside a function body by the Scope Model (§4.1); the scope-building code
is not part of the excerpt.  `inComprehension` marks comprehension-clause
targets, which live in a synthetic discardable scope. -/
structure BindEvent where
  name : String
  inComprehension : Bool
deriving DecidableEq, Repr

/-- Whether a binding occurrence counts toward the local-variable metric:
comprehension-clause targets and the single-underscore ignore token are
excluded (§4.1, and the docstring of `TooManyLocalsViolation`). -/
def qualifiesLocal (e : BindEvent) : Bool :=
  !e.inComprehension && e.name != "_"

/-- The set of distinct names counted as locals of a function body: each
qualifying name is counted once, at its first assignment, no matter how
often it is rebound. -/
def countedLocals (events : List BindEvent) : Finset String :=
  ((events.filter qualifiesLocal).map BindEvent.name).toFinset

/-- Modelled from the spec: the local-variable count compared against
`max_local_variables` ("Local variable count | distinct Bindings ... |
function", §4.2); the collector code is not part of the excerpt. -/
def localsCount (events : List BindEvent) : Nat :=
  (countedLocals events).card

/-- The local-variable collector for one function, reporting code 210. -/
def checkLocals (events : List BindEvent) (cfg : Config) (line col : Nat) :
    Option Violation :=
  collectMetric Metric.localVariables (localsCount events) cfg line col

/-- The counted-locals set of an extended event list splits as a union. -/
theorem countedLocals_append (es : List BindEvent) (e : BindEvent) :
    countedLocals (es ++ [e]) = countedLocals es ∪ countedLocals [e] := by
  simp [countedLocals, List.filter_append, List.map_append]

/-- Membership in the counted-locals set, unfolded. -/
theorem mem_countedLocals (a : String) (es : List BindEvent) :
    a ∈ countedLocals es ↔
      ∃ e ∈ es, qualifiesLocal e = true ∧ e.name = a := by
  simp [countedLocals, List.mem_toFinset, List.mem_map, List.mem_filter]
  constructor
  · rintro ⟨e, ⟨he, hq⟩, hn⟩
    exact ⟨e, he, hq, hn⟩
  · rintro ⟨e, he, hq, hn⟩
    exact ⟨e, ⟨he, hq⟩, hn⟩

/-- C5: the local-variable count counts each distinct qualifying name
once: appending a comprehension-internal target changes nothing; appending
a binding named with the ignore token `_` changes nothing; re-binding an
already-seen occurrence changes nothing; and a fresh, non-comprehension,
non-ignore binding raises the count by exactly one. -/
theorem locals_count_semantics (es : List BindEvent) (n : String)
    (b : Bool) (e : BindEvent) :
    localsCount (es ++ [⟨n, true⟩]) = localsCount es ∧
    localsCount (es ++ [⟨"_", b⟩]) = localsCount es ∧
    (e ∈ es → localsCount (es ++ [e]) = localsCount es) ∧
    (e.inComprehension = false → e.name ≠ "_" →
      (∀ e' ∈ es, e'.name ≠ e.name) →
      localsCount (es ++ [e]) = localsCount es + 1) := by
  refine ⟨?_, ?_, ?_, ?_⟩
  · have h : countedLocals [(⟨n, true⟩ : BindEvent)] = ∅ := by
      simp [countedLocals, qualifiesLocal]
    simp [localsCount, countedLocals_append, h]
  · have h : countedLocals [(⟨"_", b⟩ : BindEvent)] = ∅ := by
      simp [countedLocals, qualifiesLocal]
    simp [localsCount, countedLocals_append, h]
  · intro he
    by_cases hq : qualifiesLocal e = true
    · have hsingle : countedLocals [e] = {e.name} := by
        simp [countedLocals, hq]
      have hmem : e.name ∈ countedLocals es :=
        (mem_countedLocals e.name es).mpr ⟨e, he, hq, rfl⟩
      have hsub : countedLocals [e] ⊆ countedLocals es := by
        rw [hsingle]
        exact Finset.singleton_subset_iff.mpr hmem
      simp [localsCount, countedLocals_append, Finset.union_eq_left.mpr hsub]
    · have h : countedLocals [e] = ∅ := by
        simp [countedLocals, List.filter, hq]
      simp [localsCount, countedLocals_append, h]
  · intro hcomp hname hfresh
    have hq : qualifiesLocal e = true := by
      simp [qualifiesLocal, hcomp, hname]
    have hsingle : countedLocals [e] = {e.name} := by
      simp [countedLocals, hq]
    have hnotmem : e.name ∉ countedLocals es := by
      intro hmem
      obtain ⟨e', he', _, hn⟩ := (mem_countedLocals e.name es).mp hmem
      exact hfresh e' he' hn
    rw [localsCount, countedLocals_append, hsingle, Finset.union_comm,
      ← Finset.insert_eq, Finset.card_insert_of_not_mem hnotmem]
    rfl

/-- Witness for C5 at concrete event lists: the events of the
`second_function` example in the docstring of `TooManyLocalsViolation`,
extended with a comprehension target, an ignore-token binding, a
re-assignment, and a fresh binding. -/
theorem locals_count_semantics_witness :
    localsCount [⟨"second_var", false⟩, ⟨"argument", false⟩,
      ⟨"third_var", false⟩, ⟨"comp_target", true⟩] =
      localsCount [⟨"second_var", false⟩, ⟨"argument", false⟩,
        ⟨"third_var", false⟩] ∧
    localsCount [⟨"second_var", false⟩, ⟨"argument", false⟩,
      ⟨"third_var", false⟩, ⟨"_", false⟩] =
      localsCount [⟨"second_var", false⟩, ⟨"argument", false⟩,
        ⟨"third_var", false⟩] ∧
    localsCount [⟨"second_var", false⟩, ⟨"argument", false⟩,
      ⟨"third_var", false⟩, ⟨"argument", false⟩] =
      localsCount [⟨"second_var", false⟩, ⟨"argument", false⟩,
        ⟨"third_var", false⟩] ∧
    localsCount [⟨"second_var", false⟩, ⟨"argument", false⟩,
      ⟨"third_var", false⟩, ⟨"fourth_var", false⟩] =
      localsCount [⟨"second_var", false⟩, ⟨"argument", false⟩,
        ⟨"third_var", false⟩] + 1 := by
  refine ⟨?_, ?_, ?_, ?_⟩
  · exact (locals_count_semantics
      [⟨"second_var", false⟩, ⟨"argument", false⟩, ⟨"third_var", false⟩]
      "comp_target" false ⟨"argument", false⟩).1
  · exact (locals_count_semantics
      [⟨"second_var", false⟩, ⟨"argument", false⟩, ⟨"third_var", false⟩]
      "comp_target" false ⟨"argument", false⟩).2.1
  · exact (locals_count_semantics
      [⟨"second_var", false⟩, ⟨"argument", false⟩, ⟨"third_var", false⟩]
      "comp_target" false ⟨"argument", false⟩).2.2.1 (by decide)
  · exact (locals_count_semantics
      [⟨"second_var", false⟩, ⟨"argument", false⟩, ⟨"third_var", false⟩]
      "comp_target" false ⟨"fourth_var", false⟩).2.2.2 rfl (by decide)
      (by decide)

/-- The node shapes the Jones metric distinguishes: module-level nodes,
function/class definition headers, and type-annotation nodes are excluded
from per-line counting (`LineComplexityViolation` docstring); every other
node counts. -/
inductive NodeKind where
  | moduleNode
  | defHeader
  | typeHint
  | plain
deriving DecidableEq, Repr

/-- A syntax-tree node as the line-oriented metrics see it: its source
line and its shape. -/
structure TreeNode where
  line : Nat
  kind : NodeKind
deriving DecidableEq, Repr

/-- Whether a node shape is counted by the Jones metric. -/
def countsForJones : NodeKind → Bool
  | NodeKind.plain => true
  | _ => false

/-- Modelled from the spec: the per-line Jones score, "syntax-tree nodes
attributable to one source line, excluding module-level nodes, definition
headers, and type-annotation nodes" (§4.2); the collector code is not part
of the excerpt. -/
def lineScore (nodes : List TreeNode) (l : Nat) : Nat :=
  (nodes.filter (fun n => countsForJones n.kind && n.line == l)).length

/-- The distinct source lines holding at least one counted node. -/
def linesOf (nodes : List TreeNode) : List Nat :=
  ((nodes.filter (fun n => countsForJones n.kind)).map TreeNode.line).dedup

/-- Twice the module Jones score: the sum of the two middle per-line
scores of the sorted score list (the same score twice when the length is
odd), kept in ℕ so that the collector stays kernel-executable. -/
def jonesMedianNum (nodes : List TreeNode) : Nat :=
  (List.insertionSort (fun a b : Nat => a ≤ b)
      ((linesOf nodes).map (lineScore nodes))).getD
    (((linesOf nodes).length - 1) / 2) 0 +
  (List.insertionSort (fun a b : Nat => a ≤ b)
      ((linesOf nodes).map (lineScore nodes))).getD
    ((linesOf nodes).length / 2) 0

/-- Modelled from the spec: the module Jones score, "the median of all
per-line scores" (§4.2); the aggregation code is not part of the excerpt.
The spec leaves the even-length tie-break open (§9), so the model takes
the mean of the two middle scores, which coincides with the middle score
for odd lengths. -/
def jonesMedian (nodes : List TreeNode) : ℚ :=
  (jonesMedianNum nodes : ℚ) / 2

/-- The per-line Jones collector, reporting code 221 against
`max_line_complexity`. -/
def checkLine (nodes : List TreeNode) (cfg : Config) (l : Nat) :
    Option Violation :=
  collectMetric Metric.lineComplexity (lineScore nodes l) cfg l 0

/-- The module-score collector, reporting code 200 against the
independent `max_module_score` threshold. -/
def checkModuleScore (nodes : List TreeNode) (cfg : Config) :
    Option Violation :=
  if cfg.max_module_score * 2 < jonesMedianNum nodes then
    some (mkViolation 200 0 0 "")
  else
    none

/-- The executable ℕ comparison of `checkModuleScore` agrees with the
strict comparison of the rational median against the threshold. -/
theorem jonesMedian_gt_iff (nodes : List TreeNode) (t : Nat) :
    (t : ℚ) < jonesMedian nodes ↔ t * 2 < jonesMedianNum nodes := by
  rw [jonesMedian, lt_div_iff₀ (by norm_num : (0 : ℚ) < 2)]
  exact_mod_cast Iff.rfl

/-- C6: excluded node shapes contribute nothing to any line's score while
a counted node on the line adds one; the line collector fires with code
221 exactly when the line's own score exceeds `max_line_complexity`; the
module collector fires with code 200 exactly when the median of the
per-line scores exceeds `max_module_score`; and each of the two collectors
depends only on its own threshold. -/
theorem jones_complexity_semantics (nodes : List TreeNode)
    (l m : Nat) (k : NodeKind) (cfg cfg2 : Config) :
    lineScore (⟨m, k⟩ :: nodes) l =
      lineScore nodes l +
        (if k = NodeKind.plain ∧ m = l then 1 else 0) ∧
    (cfg.max_line_complexity < lineScore nodes l ↔
      ∃ v, checkLine nodes cfg l = some v ∧ v.code = 221) ∧
    ((cfg.max_module_score : ℚ) < jonesMedian nodes ↔
      ∃ v, checkModuleScore nodes cfg = some v ∧ v.code = 200) ∧
    (cfg.max_line_complexity = cfg2.max_line_complexity →
      checkLine nodes cfg l = checkLine nodes cfg2 l) ∧
    (cfg.max_module_score = cfg2.max_module_score →
      checkModuleScore nodes cfg = checkModuleScore nodes cfg2) := by
  have hthr : ∀ c : Config, thresholdOf c Metric.lineComplexity =
      c.max_line_complexity := fun _ => rfl
  refine ⟨?_, ?_, ?_, ?_, ?_⟩
  · cases k <;> by_cases hm : m = l <;>
      simp [lineScore, countsForJones, hm, List.filter_cons]
  · constructor
    · intro h
      refine ⟨mkViolation 221 l 0 (toString (lineScore nodes l)), ?_, rfl⟩
      simp [checkLine, collectMetric, hthr, h, metricCode]
    · rintro ⟨v, hv, -⟩
      by_cases h : cfg.max_line_complexity < lineScore nodes l
      · exact h
      · simp [checkLine, collectMetric, hthr, h] at hv
  · rw [jonesMedian_gt_iff]
    constructor
    · intro h
      refine ⟨mkViolation 200 0 0 "", ?_, rfl⟩
      simp [checkModuleScore, h]
    · rintro ⟨v, hv, -⟩
      by_cases h : cfg.max_module_score * 2 < jonesMedianNum nodes
      · exact h
      · simp [checkModuleScore, h] at hv
  · intro h
    simp [checkLine, collectMetric, hthr, h]
  · intro h
    simp [checkModuleScore, h]

/-- A second concrete configuration, differing from `exampleConfig` in
every threshold except `max_line_complexity` and `max_module_score`. -/
def exampleConfig2 : Config :=
  ⟨99, 99, 99, 99, 99, 99, 99, 99, 14, 10, 99, 99, 99, 99, 99⟩

/-- Witness for C6: on a two-node file, the hypotheses of the
independence conjuncts hold between the two concrete configurations. -/
theorem jones_complexity_semantics_witness :
    checkLine [⟨1, NodeKind.plain⟩, ⟨1, NodeKind.defHeader⟩] exampleConfig 1 =
      checkLine [⟨1, NodeKind.plain⟩, ⟨1, NodeKind.defHeader⟩]
        exampleConfig2 1 ∧
    checkModuleScore [⟨1, NodeKind.plain⟩, ⟨1, NodeKind.defHeader⟩]
        exampleConfig =
      checkModuleScore [⟨1, NodeKind.plain⟩, ⟨1, NodeKind.defHeader⟩]
        exampleConfig2 :=
  ⟨(jones_complexity_semantics [⟨1, NodeKind.plain⟩, ⟨1, NodeKind.defHeader⟩]
      1 1 NodeKind.plain exampleConfig exampleConfig2).2.2.2.1 (by decide),
   (jones_complexity_semantics [⟨1, NodeKind.plain⟩, ⟨1, NodeKind.defHeader⟩]
      1 1 NodeKind.plain exampleConfig exampleConfig2).2.2.2.2 (by decide)⟩

/-- Whitespace uniformly tolerated around suppression-code separators. -/
def isSpaceChar (c : Char) : Bool :=
  c = ' ' || c = '\t'

/-- Strip surrounding whitespace from a token. -/
def trimChars (cs : List Char) : List Char :=
  ((cs.dropWhile isSpaceChar).reverse.dropWhile isSpaceChar).reverse

/-- Split a character list on commas; `acc` holds the current token,
reversed. -/
def splitComma (cs : List Char) (acc : List Char) : List (List Char) :=
  match cs with
  | [] => [acc.reverse]
  | c :: rest =>
    if c = ',' then acc.reverse :: splitComma rest []
    else splitComma rest (c :: acc)

/-- Value of a digit sequence. -/
def digitsVal (cs : List Char) : Nat :=
  cs.foldl (fun acc c => acc * 10 + (c.toNat - 48)) 0

/-- Modelled from the spec: normalization of one suppression code token
("the list accepts mixed-case codes and arbitrary spaces around commas",
§6); the scanner code is not part of the excerpt.  Whitespace is trimmed,
letters are uppercased, an optional leading marker letter `Z` (as in the
fixture's `Z113`) is dropped, and a non-empty digit sequence remains. -/
def normalizeCode (t : List Char) : Option Nat :=
  match (trimChars t).map Char.toUpper with
  | [] => none
  | 'Z' :: ds =>
    if ds ≠ [] ∧ ds.all Char.isDigit then some (digitsVal ds) else none
  | c :: cs =>
    if (c :: cs).all Char.isDigit then some (digitsVal (c :: cs)) else none

/-- Modelled from the spec: parse a comma-separated suppression code list;
a list any of whose tokens does not normalize is unparseable, and an
unparseable list is treated as suppress-all (§7), encoded here as `none`. -/
def parseCodeList (s : String) : Option (List Nat) :=
  if (splitComma s.toList []).all (fun t => (normalizeCode t).isSome) then
    some ((splitComma s.toList []).filterMap normalizeCode)
  else
    none

/-- Modelled from the spec: a parsed suppression directive (§3);
`rawCodes = none` is a bare directive (suppress-all on its line),
`rawCodes = some s` carries the unparsed code-list text after the colon. -/
structure Directive where
  line : Nat
  rawCodes : Option String
deriving DecidableEq, Repr

/-- Whether one directive suppresses one violation: the lines must match;
a bare directive, or one with an unparseable code list, suppresses every
code; otherwise the violation's code must be in the listed set. -/
def directiveSuppresses (d : Directive) (v : Violation) : Bool :=
  d.line == v.line &&
    match d.rawCodes with
    | none => true
    | some s =>
      match parseCodeList s with
      | none => true
      | some cs => cs.contains v.code

/-- Modelled from the spec: the Suppression Overlay filter (§4.4) applied
to the raw violation stream; the filtering code is not part of the
excerpt. -/
def filterViolations (ds : List Directive) (vs : List Violation) :
    List Violation :=
  vs.filter (fun v => !ds.any (fun d => directiveSuppresses d v))

/-- Unfolding of `directiveSuppresses` into a proposition. -/
theorem directiveSuppresses_iff (d : Directive) (v : Violation) :
    directiveSuppresses d v = true ↔
      d.line = v.line ∧
        (d.rawCodes = none ∨ ∃ s, d.rawCodes = some s ∧
          (parseCodeList s = none ∨
            ∃ cs, parseCodeList s = some cs ∧ v.code ∈ cs)) := by
  obtain ⟨dl, rc⟩ := d
  cases rc with
  | none => simp [directiveSuppresses]
  | some s =>
    cases hpc : parseCodeList s with
    | none => simp [directiveSuppresses, hpc]
    | some cs => simp [directiveSuppresses, hpc]

/-- C4: a violation survives the Suppression Overlay exactly when no
directive matches it; a directive matches exactly when it sits on the
violation's line and is bare (or unparseable, which fails open to
suppress-all), or lists a code set containing the violation's exact code.
Directives on other lines never remove anything, and a coded directive
leaves other codes on its own line intact.  Codes are compared after
case-insensitive, whitespace-tolerant normalization:
`" z110 , Z111"` parses to exactly the set {110, 111}. -/
theorem suppression_exactness (ds : List Directive) (vs : List Violation)
    (v : Violation) :
    (v ∈ filterViolations ds vs ↔
      v ∈ vs ∧ ∀ d ∈ ds, ¬(d.line = v.line ∧
        (d.rawCodes = none ∨ ∃ s, d.rawCodes = some s ∧
          (parseCodeList s = none ∨
            ∃ cs, parseCodeList s = some cs ∧ v.code ∈ cs)))) ∧
    parseCodeList " z110 , Z111" = some [110, 111] := by
  constructor
  · rw [filterViolations, List.mem_filter]
    constructor
    · rintro ⟨hv, hb⟩
      refine ⟨hv, fun d hd hsup => ?_⟩
      have hany : ds.any (fun d => directiveSuppresses d v) = true :=
        List.any_eq_true.mpr ⟨d, hd, (directiveSuppresses_iff d v).mpr hsup⟩
      rw [hany] at hb
      exact absurd hb (by decide)
    · rintro ⟨hv, hall⟩
      refine ⟨hv, ?_⟩
      have hany : ds.any (fun d => directiveSuppresses d v) = false := by
        by_contra hne
        have : ds.any (fun d => directiveSuppresses d v) = true := by
          revert hne
          cases ds.any (fun d => directiveSuppresses d v) <;> simp
        obtain ⟨d, hd, hsup⟩ := List.any_eq_true.mp this
        exact hall d hd ((directiveSuppresses_iff d v).mp hsup)
      rw [hany]
      rfl
  · decide

/-- An import statement as the engine sees it: its location, the original
imported name, and the alias when one is written. -/
structure ImportStmt where
  line : Nat
  col : Nat
  original : String
  importedAs : Option String
deriving DecidableEq, Repr

/-- A function/method scope with its per-function measurements and its
binding events, per the Scope Model. -/
structure FunctionInfo where
  line : Nat
  col : Nat
  argCount : Nat
  returnCount : Nat
  expressionCount : Nat
  maxDepth : Nat
  events : List BindEvent
deriving DecidableEq, Repr

/-- A class scope with its per-class measurements. -/
structure ClassInfo where
  line : Nat
  col : Nat
  baseCount : Nat
  methodCount : Nat
deriving DecidableEq, Repr

/-- A single conditional test with its boolean-operator count. -/
structure CondInfo where
  line : Nat
  col : Nat
  boolOps : Nat
deriving DecidableEq, Repr

/-- A single `if` chain with its count of consecutive `elif` branches. -/
structure IfChainInfo where
  line : Nat
  col : Nat
  elifCount : Nat
deriving DecidableEq, Repr

/-- A single comprehension with its count of `for` clauses. -/
structure CompInfo where
  line : Nat
  col : Nat
  forCount : Nat
deriving DecidableEq, Repr

/-- Modelled from the spec: the Checker's input (§4.5/§6) — a parsed
syntax tree with the scopes and measured constructs already identified,
plus the original source broken into lines; the traversal code is not part
of the excerpt. -/
structure SourceFile where
  nodes : List TreeNode
  imports : List ImportStmt
  functions : List FunctionInfo
  classes : List ClassInfo
  conds : List CondInfo
  ifChains : List IfChainInfo
  comps : List CompInfo
  moduleMemberCount : Nat
  lines : List String
deriving DecidableEq, Repr

/-- Find the text after the first `#` of a line, if any. -/
def dropToHash : List Char → Option (List Char)
  | [] => none
  | c :: cs => if c = '#' then some cs else dropToHash cs

/-- Modelled from the spec: scan one source line for a trailing
suppression comment (§4.4/§6): a `#` comment whose text starts with the
fixed marker (case-insensitive); a following `:` introduces the code list,
a bare marker suppresses everything on the line.  Returns `none` when the
line has no directive. -/
def parseNoqa (lineText : String) : Option (Option String) :=
  match dropToHash lineText.toList with
  | none => none
  | some rest =>
    match ((rest.dropWhile isSpaceChar).map Char.toLower).drop 4 with
    | ':' :: codes =>
      if hasPre "noqa".toList ((rest.dropWhile isSpaceChar).map Char.toLower)
      then some (some (String.mk codes))
      else none
    | after =>
      if hasPre "noqa".toList ((rest.dropWhile isSpaceChar).map Char.toLower)
          && (after.dropWhile isSpaceChar).isEmpty
      then some none
      else none

/-- Build the per-line directive map from the source lines (1-based line
numbers). -/
def parseDirectives (lines : List String) : List Directive :=
  (List.range lines.length).filterMap (fun i =>
    (parseNoqa (lines.getD i "")).map (fun rc => ⟨i + 1, rc⟩))

/-- Modelled from the spec: the raw violation stream (§4.5) — every
collector and the import-alias check applied over the whole file, before
suppression filtering. -/
def rawViolations (f : SourceFile) (cfg : Config) : List Violation :=
  ([collectMetric Metric.imports f.imports.length cfg 1 0,
    collectMetric Metric.moduleMembers f.moduleMemberCount cfg 1 0,
    checkModuleScore f.nodes cfg].filterMap id) ++
  f.imports.filterMap (fun i =>
    match i.importedAs with
    | some a => checkImportAlias i.original a i.line i.col
    | none => none) ++
  (f.functions.map (fun fn =>
    [checkLocals fn.events cfg fn.line fn.col,
     collectMetric Metric.arguments fn.argCount cfg fn.line fn.col,
     collectMetric Metric.returns fn.returnCount cfg fn.line fn.col,
     collectMetric Metric.expressions fn.expressionCount cfg fn.line fn.col,
     collectMetric Metric.offsetBlocks fn.maxDepth cfg fn.line fn.col
    ].filterMap id)).flatten ++
  (f.classes.map (fun c =>
    [collectMetric Metric.methods c.methodCount cfg c.line c.col,
     collectMetric Metric.baseClasses c.baseCount cfg c.line c.col
    ].filterMap id)).flatten ++
  f.conds.filterMap (fun c =>
    collectMetric Metric.conditions c.boolOps cfg c.line c.col) ++
  f.ifChains.filterMap (fun c =>
    collectMetric Metric.elifs c.elifCount cfg c.line c.col) ++
  f.comps.filterMap (fun c =>
    collectMetric Metric.comprehensionFors c.forCount cfg c.line c.col) ++
  (linesOf f.nodes).filterMap (fun l => checkLine f.nodes cfg l)

/-- The output order of the Checker: by line, then column, then code. -/
def vLE (v w : Violation) : Prop :=
  v.line < w.line ∨
    (v.line = w.line ∧
      (v.col < w.col ∨ (v.col = w.col ∧ v.code ≤ w.code)))

instance : DecidableRel vLE := fun v w => by
  unfold vLE
  exact inferInstance

instance : IsTotal Violation vLE :=
  ⟨fun v w => by unfold vLE; omega⟩

instance : IsTrans Violation vLE :=
  ⟨fun a b c hab hbc => by unfold vLE at hab hbc ⊢; omega⟩

/-- Sort the final violation list by line, then column, then code. -/
def sortViolations (vs : List Violation) : List Violation :=
  List.insertionSort vLE vs

/-- Modelled from the spec: the Checker orchestrator (§4.5) — one pass
builds the raw stream, the Suppression Overlay is applied last, and the
result is returned ordered by line, then column, then code.  A pure
function of its two arguments. -/
def checker (f : SourceFile) (cfg : Config) : List Violation :=
  sortViolations (filterViolations (parseDirectives f.lines) (rawViolations f cfg))

/-- C7: the Checker is deterministic — it is a pure function, so two
invocations on the same syntax tree, source lines and configuration are
definitionally the same list — and its output is always ordered by line,
then column, then code. -/
theorem checker_deterministic_and_sorted (f : SourceFile) (cfg : Config) :
    checker f cfg = checker f cfg ∧ List.Sorted vLE (checker f cfg) :=
  ⟨rfl, List.sorted_insertionSort vLE _⟩
